import Mathlib

/-!
Verification development for the VR-Headset desktop-streaming pipeline.

The Python sources are shallowly embedded here:
* `config.py`            → `Config` and the instance `config`
* `ui/display.py`        → `render_frame_orientation`, `put_drop_oldest`
* `processing/capture.py`→ `put_drop_oldest`
* `sensors/reader.py`    → `search_groups`, `pyFloat`, `process_line`, `run_reader`
* `sensors/fusion.py`    → `LowPassFilter` (its class body lives in the missing
  file `processing/filters.py`, so it is modelled from the spec)
* `processing/vr_distortion.py` → `compute_vr_distortion`,
  `compute_vr_distortion_fallback`, `VRProcessor` parameters and cache
* `utils/math_utils.py`  → `create_rotation_matrix`

Python floats are embedded as `ℚ` where only field arithmetic and comparisons
occur (parsing, thresholds, filters) and as `ℝ` where trigonometry occurs
(rotation matrices, projection); statements are exact-arithmetic renderings of
the floating-point code.
-/

/-- The configuration surface of `config.py`: one field per module-level
constant, in the order they appear in the file. -/
structure Config where
  WIDTH : ℕ
  HEIGHT : ℕ
  CAPTURE_WIDTH : ℕ
  CAPTURE_HEIGHT : ℕ
  IPD : ℚ
  FOV_DEGREES : ℚ
  SCREEN_DISTANCE : ℚ
  SERIAL_PORT : String
  SERIAL_BAUDRATE : ℕ
  SENSOR_FILTER_ALPHA : ℚ
  TARGET_FPS : ℕ
  CAPTURE_FPS : ℕ
  RENDER_FPS : ℕ
  FRAME_BUFFER_SIZE : ℕ
  ORIENTATION_THRESHOLD : ℚ
  CURSOR_SIZE : ℕ
  CURSOR_COLOR : ℕ × ℕ × ℕ
  FPS_TEXT_COLOR : String
  FPS_TEXT_FONT : String × ℕ
deriving DecidableEq

/-- The concrete values assigned in `config.py` (0.05 = 1/20, 0.5 = 1/2). -/
def config : Config where
  WIDTH := 2560
  HEIGHT := 1440
  CAPTURE_WIDTH := 1280
  CAPTURE_HEIGHT := 720
  IPD := 63
  FOV_DEGREES := 90
  SCREEN_DISTANCE := 2
  SERIAL_PORT := "/dev/tty.usbserial-0001"
  SERIAL_BAUDRATE := 115200
  SENSOR_FILTER_ALPHA := 1/20
  TARGET_FPS := 240
  CAPTURE_FPS := 240
  RENDER_FPS := 90
  FRAME_BUFFER_SIZE := 2
  ORIENTATION_THRESHOLD := 1/2
  CURSOR_SIZE := 5
  CURSOR_COLOR := (0, 255, 0)
  FPS_TEXT_COLOR := "white"
  FPS_TEXT_FONT := ("Arial", 24)

/-- A configuration differing from `config` in every field, used to observe
which parts of the pipeline actually read the configuration. -/
def config_alt : Config where
  WIDTH := 1920
  HEIGHT := 1080
  CAPTURE_WIDTH := 640
  CAPTURE_HEIGHT := 360
  IPD := 60
  FOV_DEGREES := 100
  SCREEN_DISTANCE := 3
  SERIAL_PORT := "/dev/ttyUSB1"
  SERIAL_BAUDRATE := 9600
  SENSOR_FILTER_ALPHA := 1/10
  TARGET_FPS := 120
  CAPTURE_FPS := 60
  RENDER_FPS := 60
  FRAME_BUFFER_SIZE := 3
  ORIENTATION_THRESHOLD := 1
  CURSOR_SIZE := 8
  CURSOR_COLOR := (255, 0, 0)
  FPS_TEXT_COLOR := "red"
  FPS_TEXT_FONT := ("Courier", 12)

/-- The orientation actually handed to `StereoProjector.render` by
`VRDisplayApp.render_frame_thread` (`ui/display.py` lines 92–98): the sensor
snapshot with `+ 100` added to yaw and `+ 12` added to pitch.  The thread holds
`self.config`, so the embedding receives the `Config`, but the two offsets are
numeric literals in the source, not configuration reads. -/
def render_frame_orientation (cfg : Config) (sensor : ℚ × ℚ × ℚ) : ℚ × ℚ × ℚ :=
  (sensor.1 + 100, sensor.2.1 + 12, sensor.2.2)

/-- `put_nowait` with the drop-oldest recovery used for the frame channel
(`processing/capture.py` lines 70–78) and the output channel
(`ui/display.py` lines 100–108): a full channel loses its oldest element to
make room for the new one.  Total function: the producer never blocks. -/
def put_drop_oldest (cap : ℕ) (q : List α) (x : α) : List α :=
  if q.length < cap then q ++ [x] else q.drop 1 ++ [x]

/-- Pushing a whole sequence of items, one `put_drop_oldest` at a time,
starting from an empty channel. -/
def push_all (cap : ℕ) (xs : List α) : List α :=
  xs.foldl (put_drop_oldest cap) []

/-- `put_nowait` on the sensor channel (`sensors/reader.py` lines 44–53):
`queue.Full` is swallowed, so a full channel drops the *new* sample. -/
def sensor_put (cap : ℕ) (q : List α) (x : α) : List α :=
  if q.length < cap then q ++ [x] else q

/-- Modelled from the spec: the class `LowPassFilter` is imported by
`sensors/fusion.py` from `processing/filters.py`, a file of this repository
absent from the sources.  Per spec §4.1 it keeps one piece of state, the last
smoothed value (`None` until the first call), and a smoothing factor `alpha`
fixed at construction. -/
structure LowPassFilter where
  alpha : ℚ
  prev : Option ℚ
deriving DecidableEq

/-- Modelled from the spec: `update(raw)` returns and stores `raw` unchanged
on the first call, and `alpha * raw + (1 - alpha) * previous` on every
subsequent call (spec §4.1). -/
def LowPassFilter.update (f : LowPassFilter) (raw : ℚ) : ℚ × LowPassFilter :=
  match f.prev with
  | none => (raw, ⟨f.alpha, some raw⟩)
  | some p =>
    let out := f.alpha * raw + (1 - f.alpha) * p
    (out, ⟨f.alpha, some out⟩)

/-- The character class `\s` of Python's `re` module, restricted to ASCII:
space, tab, newline, carriage return, vertical tab, form feed. -/
def isSpaceChar (c : Char) : Bool :=
  c = ' ' || c = '\t' || c = '\n' || c = '\r' || c = '\x0b' || c = '\x0c'

/-- The character class `[-\d.]` of `SensorReader.pattern`
(`sensors/reader.py` line 16). -/
def isNumChar (c : Char) : Bool :=
  c = '-' || c = '.' || c.isDigit

/-- Match a literal character sequence at the head of the input, returning the
rest on success (the literal parts of `SensorReader.pattern`). -/
def lit : List Char → List Char → Option (List Char)
  | [], s => some s
  | _ :: _, [] => none
  | c :: cs, d :: ds => if c = d then lit cs ds else none

/-- Greedy `[-\d.]+`: the maximal nonempty run of class characters, with the
remainder of the input.  Because `,` and `\s` are disjoint from the class, the
maximal munch is the only run Python's backtracking engine can accept here. -/
def take_num (s : List Char) : Option (List Char × List Char) :=
  let g := s.takeWhile isNumChar
  if g.isEmpty then none else some (g, s.dropWhile isNumChar)

/-- Attempt `SensorReader.pattern` anchored at the head of the input:
`Yaw:\s*([-\d.]+),\s*Pitch:\s*([-\d.]+),\s*Roll:\s*([-\d.]+)`, returning the
three captured groups. -/
def match_at (s : List Char) : Option (List Char × List Char × List Char) := do
  let s ← lit "Yaw:".toList s
  let s := s.dropWhile isSpaceChar
  let (g1, s) ← take_num s
  let s ← lit ",".toList s
  let s := s.dropWhile isSpaceChar
  let s ← lit "Pitch:".toList s
  let s := s.dropWhile isSpaceChar
  let (g2, s) ← take_num s
  let s ← lit ",".toList s
  let s := s.dropWhile isSpaceChar
  let s ← lit "Roll:".toList s
  let s := s.dropWhile isSpaceChar
  let (g3, _) ← take_num s
  pure (g1, g2, g3)

/-- `re.search(SensorReader.pattern, line)`: try the pattern at every start
position from the left, returning the first match's groups. -/
def search_groups : List Char → Option (List Char × List Char × List Char)
  | [] => match_at []
  | c :: rest =>
    match match_at (c :: rest) with
    | some g => some g
    | none => search_groups rest

/-- Numeric value of a digit string (most significant first). -/
def digitsVal (l : List Char) : ℕ :=
  l.foldl (fun a c => 10 * a + (c.toNat - 48)) 0

/-- Python `float()` on an unsigned string drawn from the class `[\d.]`:
accepted iff it is digits with at most one decimal point and at least one
digit; the exact rational value is returned. -/
def pyFloatUnsigned (l : List Char) : Option ℚ :=
  match l.splitOn '.' with
  | [a] =>
    if a ≠ [] ∧ a.all Char.isDigit then some (digitsVal a : ℚ) else none
  | [a, b] =>
    if (a ≠ [] ∨ b ≠ []) ∧ a.all Char.isDigit ∧ b.all Char.isDigit then
      some ((digitsVal a : ℚ) + (digitsVal b : ℚ) / (10 ^ b.length : ℚ))
    else none
  | _ => none

/-- Python `float()` on a string drawn from the class `[-\d.]`: an optional
leading minus sign, then a valid unsigned number; anything else (such as
"-.", ".", "1.2.3" or an interior "-") raises `ValueError`, modelled as
`none`. -/
def pyFloat (l : List Char) : Option ℚ :=
  match l with
  | '-' :: rest => (pyFloatUnsigned rest).map (fun q => -q)
  | _ => pyFloatUnsigned l

/-- Outcome of `SensorReader.sensor_reader` on one decoded line
(`sensors/reader.py` lines 37–53): no regex match (line skipped), a parsed
sample, or an exception escaping the per-line code (a `ValueError` from
`float`). -/
inductive LineResult
  | noSample
  | sample (yaw pitch roll : ℚ)
  | err
deriving DecidableEq

/-- One iteration of the sensor loop body on a decoded, stripped line:
`re.search` the pattern; on no match do nothing; on a match call `float` on
each captured group — a failing conversion raises out of the loop body. -/
def process_line (s : List Char) : LineResult :=
  match search_groups s with
  | none => .noSample
  | some (g1, g2, g3) =>
    match pyFloat g1, pyFloat g2, pyFloat g3 with
    | some y, some p, some r => .sample y p r
    | _, _, _ => .err

/-- The sensor-ingest loop over a stream of decoded lines: samples produced in
order, paired with `true` iff an exception terminated the loop early (the
`except` clause at `sensors/reader.py` line 57, after which the `finally`
clause closes the serial transport and no further line is processed). -/
def run_reader : List (List Char) → List (ℚ × ℚ × ℚ) × Bool
  | [] => ([], false)
  | l :: ls =>
    match process_line l with
    | .err => ([], true)
    | .noSample => run_reader ls
    | .sample y p r =>
      let rest := run_reader ls
      ((y, p, r) :: rest.1, rest.2)

/-- The mutable cache state of `VRProcessor`
(`processing/vr_distortion.py` lines 63–66): `self.map_cache` (initially the
empty, falsy `{}`, modelled as `none`) and `self.last_orientation` (initially
`None`).  The map payload is a type parameter `M`: claims about the cache are
purely about this control state, and the payload computed in the recompute
branch is abstracted as the function argument `compute` (instantiable with the
map computation defined below; the accelerated and fallback paths agree, as
proved separately). -/
structure ProcState (M : Type) where
  map_cache : Option M
  last_orientation : Option (ℚ × ℚ × ℚ)
deriving DecidableEq

/-- `VRProcessor.should_use_cache` (`processing/vr_distortion.py` lines
89–93): false before any computation; afterwards true iff the absolute
per-axis difference from the recorded orientation is strictly below
`ORIENTATION_THRESHOLD` on every axis. -/
def should_use_cache (θ : ℚ) (last : Option (ℚ × ℚ × ℚ)) (cur : ℚ × ℚ × ℚ) :
    Bool :=
  match last with
  | none => false
  | some l =>
    decide (|cur.1 - l.1| < θ) && decide (|cur.2.1 - l.2.1| < θ) &&
      decide (|cur.2.2 - l.2.2| < θ)

/-- `VRProcessor.compute_distortion_maps` (`processing/vr_distortion.py` lines
95–119): return the cached maps when `should_use_cache` holds and the cache is
nonempty; otherwise compute fresh maps and overwrite both the cache and the
recorded orientation. -/
def compute_distortion_maps {M : Type} (θ : ℚ) (compute : ℚ × ℚ × ℚ → M)
    (st : ProcState M) (o : ℚ × ℚ × ℚ) : M × ProcState M :=
  match st.map_cache, should_use_cache θ st.last_orientation o with
  | some m, true => (m, st)
  | _, _ =>
    let maps := compute o
    (maps, ⟨some maps, some o⟩)

/-- `math.radians`: degrees to radians. -/
noncomputable def radians (deg : ℝ) : ℝ := deg * (Real.pi / 180)

/-- `create_rotation_matrix` (`utils/math_utils.py` lines 5–28): the product
`rot_yaw @ rot_pitch @ rot_roll` of the three matrices written literally in
the source, each over the angle converted to radians. -/
noncomputable def create_rotation_matrix (yaw pitch roll : ℝ) :
    Matrix (Fin 3) (Fin 3) ℝ :=
  let yaw_rad := radians yaw
  let pitch_rad := radians pitch
  let roll_rad := radians roll
  let rot_yaw : Matrix (Fin 3) (Fin 3) ℝ :=
    !![Real.cos yaw_rad, 0, Real.sin yaw_rad;
       0, 1, 0;
       -Real.sin yaw_rad, 0, Real.cos yaw_rad]
  let rot_pitch : Matrix (Fin 3) (Fin 3) ℝ :=
    !![1, 0, 0;
       0, Real.cos pitch_rad, -Real.sin pitch_rad;
       0, Real.sin pitch_rad, Real.cos pitch_rad]
  let rot_roll : Matrix (Fin 3) (Fin 3) ℝ :=
    !![Real.cos roll_rad, -Real.sin roll_rad, 0;
       Real.sin roll_rad, Real.cos roll_rad, 0;
       0, 0, 1]
  rot_yaw * rot_pitch * rot_roll

/-- Standard right-handed rotation by `θ` about the vertical (y) axis, as the
spec describes the yaw factor. -/
noncomputable def rotation_about_vertical (θ : ℝ) : Matrix (Fin 3) (Fin 3) ℝ :=
  !![Real.cos θ, 0, Real.sin θ;
     0, 1, 0;
     -Real.sin θ, 0, Real.cos θ]

/-- Standard right-handed rotation by `θ` about the horizontal (x) axis, as
the spec describes the pitch factor. -/
noncomputable def rotation_about_horizontal (θ : ℝ) :
    Matrix (Fin 3) (Fin 3) ℝ :=
  !![1, 0, 0;
     0, Real.cos θ, -Real.sin θ;
     0, Real.sin θ, Real.cos θ]

/-- Standard right-handed rotation by `θ` about the depth (z) axis, as the
spec describes the roll factor. -/
noncomputable def rotation_about_depth (θ : ℝ) : Matrix (Fin 3) (Fin 3) ℝ :=
  !![Real.cos θ, -Real.sin θ, 0;
     Real.sin θ, Real.cos θ, 0;
     0, 0, 1]

/-- `self.target_width` from `VRProcessor.precompute_vr_parameters`
(`processing/vr_distortion.py` line 69): integer division by 2. -/
def target_width (cfg : Config) : ℕ := cfg.CAPTURE_WIDTH / 2

/-- `self.target_height` (`processing/vr_distortion.py` line 70). -/
def target_height (cfg : Config) : ℕ := cfg.CAPTURE_HEIGHT

/-- `self.fov_rad` (`processing/vr_distortion.py` line 72). -/
noncomputable def fov_rad (cfg : Config) : ℝ := radians (cfg.FOV_DEGREES : ℝ)

/-- `self.focal_length` (`processing/vr_distortion.py` line 73). -/
noncomputable def focal_length (cfg : Config) : ℝ :=
  ((target_width cfg : ℝ) / 2) / Real.tan (fov_rad cfg / 2)

/-- `self.half_ipd`, the IPD converted from millimetres to pixel units
(`processing/vr_distortion.py` line 76). -/
noncomputable def half_ipd (cfg : Config) : ℝ :=
  (cfg.IPD : ℝ) * focal_length cfg / ((cfg.SCREEN_DISTANCE : ℝ) * 1000) / 2

/-- `self.x_flat`, the row-major flattening of
`x_centered = x_grid - target_width / 2` built from
`np.mgrid[0:target_height, 0:target_width]`
(`processing/vr_distortion.py` lines 79–87): at flat index `i` the column is
`i % target_width`. -/
noncomputable def x_flat (cfg : Config) (i : ℕ) : ℝ :=
  ((i % target_width cfg : ℕ) : ℝ) - (target_width cfg : ℝ) / 2

/-- `self.y_flat`, the flattening of `y_centered = y_grid - target_height / 2`:
at flat index `i` the row is `i / target_width`. -/
noncomputable def y_flat (cfg : Config) (i : ℕ) : ℝ :=
  ((i / target_width cfg : ℕ) : ℝ) - (target_height cfg : ℝ) / 2

/-- `self.z_flat`, constant at the focal length
(`processing/vr_distortion.py` line 82). -/
noncomputable def z_flat (cfg : Config) (_ : ℕ) : ℝ := focal_length cfg

/-- The four remap grids returned by the map computations, as functions of
destination row and column (`RemapMap` of the spec's data model). -/
structure RemapMaps where
  left_x : ℕ → ℕ → ℝ
  left_y : ℕ → ℕ → ℝ
  right_x : ℕ → ℕ → ℝ
  right_y : ℕ → ℕ → ℝ

/-- The JIT-compiled kernel `compute_vr_distortion`
(`processing/vr_distortion.py` lines 8–58): per flat index, offset the x
coordinate by `∓ half_ipd` (left `-`, right `+`), rotate by explicit row
sums against `rot_matrix`, then either project perspectively when the rotated
z is positive or keep the `-1.0` the screen arrays were filled with; finally
reshape row-major with width `img_width`. -/
noncomputable def compute_vr_distortion (x_flat y_flat z_flat : ℕ → ℝ)
    (half_ipd focal_length target_width target_height : ℝ)
    (rot_matrix : Matrix (Fin 3) (Fin 3) ℝ) (img_width : ℕ) : RemapMaps :=
  let left_rotated_x := fun i =>
    (x_flat i - half_ipd) * rot_matrix 0 0 + y_flat i * rot_matrix 0 1 +
      z_flat i * rot_matrix 0 2
  let left_rotated_y := fun i =>
    (x_flat i - half_ipd) * rot_matrix 1 0 + y_flat i * rot_matrix 1 1 +
      z_flat i * rot_matrix 1 2
  let left_rotated_z := fun i =>
    (x_flat i - half_ipd) * rot_matrix 2 0 + y_flat i * rot_matrix 2 1 +
      z_flat i * rot_matrix 2 2
  let left_screen_x := fun i =>
    if 0 < left_rotated_z i then
      left_rotated_x i / left_rotated_z i * focal_length + target_width / 2
    else -1
  let left_screen_y := fun i =>
    if 0 < left_rotated_z i then
      left_rotated_y i / left_rotated_z i * focal_length + target_height / 2
    else -1
  let right_rotated_x := fun i =>
    (x_flat i + half_ipd) * rot_matrix 0 0 + y_flat i * rot_matrix 0 1 +
      z_flat i * rot_matrix 0 2
  let right_rotated_y := fun i =>
    (x_flat i + half_ipd) * rot_matrix 1 0 + y_flat i * rot_matrix 1 1 +
      z_flat i * rot_matrix 1 2
  let right_rotated_z := fun i =>
    (x_flat i + half_ipd) * rot_matrix 2 0 + y_flat i * rot_matrix 2 1 +
      z_flat i * rot_matrix 2 2
  let right_screen_x := fun i =>
    if 0 < right_rotated_z i then
      right_rotated_x i / right_rotated_z i * focal_length + target_width / 2
    else -1
  let right_screen_y := fun i =>
    if 0 < right_rotated_z i then
      right_rotated_y i / right_rotated_z i * focal_length + target_height / 2
    else -1
  { left_x := fun r c => left_screen_x (r * img_width + c)
    left_y := fun r c => left_screen_y (r * img_width + c)
    right_x := fun r c => right_screen_x (r * img_width + c)
    right_y := fun r c => right_screen_y (r * img_width + c) }

/-- `VRProcessor.compute_vr_distortion_fallback`
(`processing/vr_distortion.py` lines 121–161): builds the coordinate matrix
with the IPD offset, multiplies by the transposed rotation matrix (so each row
is `rot_matrix.mulVec` of the point), fills the screen arrays with `-1.0`, and
overwrites exactly the indices whose rotated z is positive with the
perspective projection; reshaped to `(target_height, target_width)`. -/
noncomputable def compute_vr_distortion_fallback (cfg : Config)
    (yaw pitch roll : ℝ) : RemapMaps :=
  let rotation_matrix := create_rotation_matrix yaw pitch roll
  let left_coords := fun i =>
    ![x_flat cfg i - half_ipd cfg, y_flat cfg i, z_flat cfg i]
  let left_rotated := fun i => rotation_matrix.mulVec (left_coords i)
  let left_screen_x := fun i =>
    if 0 < left_rotated i 2 then
      left_rotated i 0 / left_rotated i 2 * focal_length cfg +
        (target_width cfg : ℝ) / 2
    else -1
  let left_screen_y := fun i =>
    if 0 < left_rotated i 2 then
      left_rotated i 1 / left_rotated i 2 * focal_length cfg +
        (target_height cfg : ℝ) / 2
    else -1
  let right_coords := fun i =>
    ![x_flat cfg i + half_ipd cfg, y_flat cfg i, z_flat cfg i]
  let right_rotated := fun i => rotation_matrix.mulVec (right_coords i)
  let right_screen_x := fun i =>
    if 0 < right_rotated i 2 then
      right_rotated i 0 / right_rotated i 2 * focal_length cfg +
        (target_width cfg : ℝ) / 2
    else -1
  let right_screen_y := fun i =>
    if 0 < right_rotated i 2 then
      right_rotated i 1 / right_rotated i 2 * focal_length cfg +
        (target_height cfg : ℝ) / 2
    else -1
  { left_x := fun r c => left_screen_x (r * target_width cfg + c)
    left_y := fun r c => left_screen_y (r * target_width cfg + c)
    right_x := fun r c => right_screen_x (r * target_width cfg + c)
    right_y := fun r c => right_screen_y (r * target_width cfg + c) }

/-- The accelerated path as `VRProcessor.compute_distortion_maps` invokes it
(`processing/vr_distortion.py` lines 104–110): the kernel applied to the
precomputed flattened grids, VR parameters and the rotation matrix for the
requested orientation. -/
noncomputable def distortion_maps (cfg : Config) (yaw pitch roll : ℝ) :
    RemapMaps :=
  compute_vr_distortion (x_flat cfg) (y_flat cfg) (z_flat cfg) (half_ipd cfg)
    (focal_length cfg) (target_width cfg : ℝ) (target_height cfg : ℝ)
    (create_rotation_matrix yaw pitch roll) (target_width cfg)

/-- The spec's per-point projection rule (§4.5 step 2): project a rotated
point when its z-coordinate is positive, else the invalid sentinel `-1` for
both coordinates. -/
noncomputable def spec_project (focal tw th : ℝ) (v : Fin 3 → ℝ) : ℝ × ℝ :=
  if 0 < v 2 then (v 0 / v 2 * focal + tw / 2, v 1 / v 2 * focal + th / 2)
  else (-1, -1)

/-- The repository configuration with the interpupillary distance set to zero,
the hypothesis of the identity-projection property. -/
def config_ipd0 : Config := { config with IPD := 0 }

section

attribute [local semireducible] Rat.add Rat.sub Rat.mul Rat.inv Rat.ofScientific

/-- C1, counterexample: the calibration offsets applied by the render loop are
the literals `100` and `12` from `ui/display.py`, not configuration reads —
replacing the whole configuration (every field differs) leaves both offsets
unchanged, so they are not values taken from the configuration surface. -/
theorem C1_offsets_not_from_config :
    render_frame_orientation config (0, 0, 0) = (100, 12, 0) ∧
    render_frame_orientation config_alt (0, 0, 0) = (100, 12, 0) ∧
    config ≠ config_alt :=
  ⟨by decide, by decide, by decide⟩

/-- C1, amended: for every frame the render loop adds calibration offsets to
yaw and pitch before invoking the projector, but the offsets are the hardcoded
numeric literals `+100` (yaw) and `+12` (pitch) in the render logic, identical
under every configuration. -/
theorem C1_offsets_hardcoded (cfg cfg' : Config) (s : ℚ × ℚ × ℚ) :
    render_frame_orientation cfg s = (s.1 + 100, s.2.1 + 12, s.2.2) ∧
    render_frame_orientation cfg s = render_frame_orientation cfg' s :=
  ⟨rfl, rfl⟩

theorem push_all_aux {α : Type} (cap : ℕ) (hcap : 0 < cap) (xs : List α) :
    ∀ q : List α, q.length ≤ cap →
      xs.foldl (put_drop_oldest cap) q =
        (q ++ xs).drop ((q ++ xs).length - cap) := by
  induction xs with
  | nil =>
    intro q hq
    simp [Nat.sub_eq_zero_of_le hq]
  | cons x xs ih =>
    intro q hq
    rw [List.foldl_cons]
    by_cases hlt : q.length < cap
    · rw [show put_drop_oldest cap q x = q ++ [x] by
        simp [put_drop_oldest, hlt]]
      rw [ih (q ++ [x]) (by simp; omega)]
      simp [List.append_assoc]
    · have hq' : q.length = cap := le_antisymm hq (not_lt.mp hlt)
      have hone : 1 ≤ q.length := by omega
      rw [show put_drop_oldest cap q x = q.drop 1 ++ [x] by
        simp [put_drop_oldest, hlt]]
      rw [ih (q.drop 1 ++ [x]) (by simp; omega)]
      have h1 : (q.drop 1 ++ [x]) ++ xs = (q ++ x :: xs).drop 1 := by
        rw [List.drop_append_of_le_length hone]
        simp
      rw [h1, List.drop_drop]
      congr 1
      simp only [List.length_drop, List.length_append, List.length_cons]
      omega

/-- C6: pushing into a full capacity-`cap` frame/output channel removes the
oldest element and inserts the new one, and after pushing `cap + 1` items into
an initially empty channel exactly the `cap` most recent items remain, in
arrival order (`put_drop_oldest` is total, so the producer never blocks). -/
theorem C6_channel_drop_oldest {α : Type} (cap : ℕ) (q xs : List α) (x : α)
    (hcap : 0 < cap) :
    (q.length = cap → put_drop_oldest cap q x = q.drop 1 ++ [x]) ∧
    (xs.length = cap + 1 →
      push_all cap xs = xs.drop 1 ∧ (push_all cap xs).length = cap) := by
  constructor
  · intro hq
    simp [put_drop_oldest, hq]
  · intro hxs
    have h := push_all_aux cap hcap xs [] (by simp)
    simp only [List.nil_append] at h
    rw [push_all, h, hxs]
    constructor
    · congr 1
      omega
    · simp only [List.length_drop]
      omega

/-- Witness for C6 at capacity 2: a full channel `[1, 2]` receiving `3`
becomes `[2, 3]`, and pushing `[10, 20, 30]` into an empty channel leaves
`[20, 30]`. -/
theorem C6_channel_drop_oldest_witness :
    (0 < 2 ∧ ([1, 2] : List ℕ).length = 2 ∧
      put_drop_oldest 2 [1, 2] 3 = [2, 3]) ∧
    (([10, 20, 30] : List ℕ).length = 2 + 1 ∧
      push_all 2 [10, 20, 30] = [20, 30] ∧
      (push_all 2 [10, 20, 30]).length = 2) :=
  ⟨⟨by decide, by decide,
      (C6_channel_drop_oldest 2 [1, 2] [10, 20, 30] 3 (by decide)).1
        (by decide)⟩,
   ⟨by decide,
      (C6_channel_drop_oldest 2 [1, 2] [10, 20, 30] 3 (by decide)).2
        (by decide)⟩⟩

/-- C9: `update` on a fresh filter returns and stores the raw value; on a
filter with state `p` it returns and stores `alpha * raw + (1 - alpha) * p`;
for `alpha = 1` the output is the raw input; for `alpha ∈ (0, 1)` the output
lies between the previous output and the new input. -/
theorem C9_lowpass_update (a p raw : ℚ) :
    LowPassFilter.update ⟨a, none⟩ raw = (raw, ⟨a, some raw⟩) ∧
    LowPassFilter.update ⟨a, some p⟩ raw =
      (a * raw + (1 - a) * p, ⟨a, some (a * raw + (1 - a) * p)⟩) ∧
    (a = 1 → (LowPassFilter.update ⟨a, some p⟩ raw).1 = raw) ∧
    (0 < a → a < 1 →
      min p raw ≤ (LowPassFilter.update ⟨a, some p⟩ raw).1 ∧
      (LowPassFilter.update ⟨a, some p⟩ raw).1 ≤ max p raw) := by
  refine ⟨rfl, rfl, ?_, ?_⟩
  · rintro rfl
    simp [LowPassFilter.update]
  · intro h0 h1
    simp only [LowPassFilter.update]
    constructor
    · rcases le_total p raw with h | h
      · rw [min_eq_left h]; nlinarith
      · rw [min_eq_right h]; nlinarith
    · rcases le_total p raw with h | h
      · rw [max_eq_right h]; nlinarith
      · rw [max_eq_left h]; nlinarith

/-- Witness for C9: with `alpha = 1` the blend of previous `5` and raw `3`
returns `3`; with `alpha = 1/2` the blend of previous `0` and raw `2` lies
between them. -/
theorem C9_lowpass_update_witness :
    ((1 : ℚ) = 1 ∧ (LowPassFilter.update ⟨1, some 5⟩ 3).1 = 3) ∧
    ((0 : ℚ) < 1/2 ∧ (1/2 : ℚ) < 1 ∧
      min (0 : ℚ) 2 ≤ (LowPassFilter.update ⟨1/2, some 0⟩ 2).1 ∧
      (LowPassFilter.update ⟨1/2, some 0⟩ 2).1 ≤ max (0 : ℚ) 2) :=
  ⟨⟨rfl, (C9_lowpass_update 1 5 3).2.2.1 rfl⟩,
   ⟨by decide, by decide,
    (C9_lowpass_update (1/2) 0 2).2.2.2 (by decide) (by decide)⟩⟩

/-- C2: if a cached map exists and the new orientation differs from the
recorded one by strictly less than the threshold on every axis, the cached map
is returned and the state is untouched (the `compute` function is not
consulted, so no recomputation occurs); if any axis reaches or exceeds the
threshold, or no computation has happened yet, the maps are recomputed and the
single-entry cache and recorded orientation are replaced wholesale. -/
theorem C2_remap_cache (M : Type) (θ : ℚ) (compute : ℚ × ℚ × ℚ → M)
    (st : ProcState M) (o l : ℚ × ℚ × ℚ) (m : M) :
    (st.map_cache = some m → st.last_orientation = some l →
      |o.1 - l.1| < θ → |o.2.1 - l.2.1| < θ → |o.2.2 - l.2.2| < θ →
      compute_distortion_maps θ compute st o = (m, st)) ∧
    (st.last_orientation = some l →
      (θ ≤ |o.1 - l.1| ∨ θ ≤ |o.2.1 - l.2.1| ∨ θ ≤ |o.2.2 - l.2.2|) →
      compute_distortion_maps θ compute st o =
        (compute o, ⟨some (compute o), some o⟩)) ∧
    (st.last_orientation = none →
      compute_distortion_maps θ compute st o =
        (compute o, ⟨some (compute o), some o⟩)) := by
  refine ⟨?_, ?_, ?_⟩
  · intro hm hl h1 h2 h3
    have hb : should_use_cache θ st.last_orientation o = true := by
      rw [hl]
      simp [should_use_cache, h1, h2, h3]
    unfold compute_distortion_maps
    rw [hm, hb]
  · intro hl hge
    have hb : should_use_cache θ st.last_orientation o = false := by
      rw [hl]
      simp only [should_use_cache]
      rcases hge with h | h | h <;>
        simp [not_lt.mpr h]
    unfold compute_distortion_maps
    rw [hb]
    cases h : st.map_cache <;> rfl
  · intro hl
    have hb : should_use_cache θ st.last_orientation o = false := by
      rw [hl]
      rfl
    unfold compute_distortion_maps
    rw [hb]
    cases h : st.map_cache <;> rfl

/-- Witness for C2 with natural-number payloads and threshold 1/2: a cache hit
at orientation difference 1/10 returns the stored map 5 untouched; a
difference of 1 on the yaw axis forces recomputation (payload 7); a fresh
processor recomputes. -/
theorem C2_remap_cache_witness :
    (|(1 : ℚ)/10 - 0| < 1/2 ∧
      compute_distortion_maps (1/2) (fun _ => (7 : ℕ))
        ⟨some 5, some (0, 0, 0)⟩ (1/10, 0, 0) =
        (5, ⟨some 5, some (0, 0, 0)⟩)) ∧
    ((1 : ℚ)/2 ≤ |(1 : ℚ) - 0| ∧
      compute_distortion_maps (1/2) (fun _ => (7 : ℕ))
        ⟨some 5, some (0, 0, 0)⟩ (1, 0, 0) =
        (7, ⟨some 7, some (1, 0, 0)⟩)) ∧
    compute_distortion_maps (1/2) (fun _ => (7 : ℕ)) ⟨none, none⟩ (0, 0, 0) =
      (7, ⟨some 7, some (0, 0, 0)⟩) :=
  ⟨⟨by decide,
    (C2_remap_cache ℕ (1/2) (fun _ => 7) ⟨some 5, some (0, 0, 0)⟩
        (1/10, 0, 0) (0, 0, 0) 5).1 rfl rfl (by decide) (by decide)
      (by decide)⟩,
   ⟨by decide,
    (C2_remap_cache ℕ (1/2) (fun _ => 7) ⟨some 5, some (0, 0, 0)⟩
        (1, 0, 0) (0, 0, 0) 5).2.1 rfl (Or.inl (by decide))⟩,
    (C2_remap_cache ℕ (1/2) (fun _ => 7) ⟨none, none⟩
        (0, 0, 0) (0, 0, 0) 5).2.2 rfl⟩

/-- C5: the claim's normal-case behaviour, evaluated on the code: the spec's
example lines parse as required, and the sensor channel enqueues non-blocking
(dropping the new sample when full); but the failing input
`"Yaw: -., Pitch: 1.0, Roll: 1.0"` — a noise line that contains no valid
number triple — is not silently discarded: the regex still matches (capture
`-.`), `float` raises, and the loop dies (`C10` proves the termination). -/
theorem C5_sensor_parsing :
    process_line "noise Yaw: -12.50, Pitch: 3.0, Roll: 0.00 trailing".toList =
      LineResult.sample (-12.5) 3 0 ∧
    process_line "garbage".toList = LineResult.noSample ∧
    process_line "Yaw: -., Pitch: 1.0, Roll: 1.0".toList = LineResult.err ∧
    sensor_put 10 (List.replicate 10 ((0 : ℚ), (0 : ℚ), (0 : ℚ))) (1, 2, 3) =
      List.replicate 10 ((0 : ℚ), (0 : ℚ), (0 : ℚ)) ∧
    sensor_put 10 ([] : List (ℚ × ℚ × ℚ)) (1, 2, 3) = [(1, 2, 3)] := by
  refine ⟨by decide, by decide, by decide, by decide, by decide⟩

/-- C10: the line `"Yaw: -., Pitch: 1.0, Roll: 1.0"` matches the extraction
pattern with first capture `-.`, which `float` rejects; the exception escapes
the per-line handling, so the ingest loop terminates (transport closed by the
`finally` clause) and a perfectly good subsequent line is never processed. -/
theorem C10_invalid_capture_kills_loop :
    search_groups "Yaw: -., Pitch: 1.0, Roll: 1.0".toList =
      some (['-', '.'], ['1', '.', '0'], ['1', '.', '0']) ∧
    pyFloat ['-', '.'] = none ∧
    run_reader ["Yaw: -., Pitch: 1.0, Roll: 1.0".toList,
      "noise Yaw: -12.50, Pitch: 3.0, Roll: 0.00 trailing".toList] =
      ([], true) := by
  refine ⟨by decide, by decide, by decide⟩

end

/-- C7: the matrix built by `create_rotation_matrix` is exactly
`R_yaw · R_pitch · R_roll`, the standard right-handed rotations about the
vertical, horizontal and depth axes by the respective angles converted to
radians. -/
theorem C7_rotation_matrix_order (yaw pitch roll : ℝ) :
    create_rotation_matrix yaw pitch roll =
      rotation_about_vertical (radians yaw) *
        rotation_about_horizontal (radians pitch) *
        rotation_about_depth (radians roll) := rfl

theorem mulVec_three (M : Matrix (Fin 3) (Fin 3) ℝ) (x y z : ℝ) (j : Fin 3) :
    M.mulVec ![x, y, z] j = x * M j 0 + y * M j 1 + z * M j 2 := by
  simp [Matrix.mulVec, Matrix.dotProduct, Fin.sum_univ_three]
  ring

/-- C3: the accelerated kernel (as `compute_distortion_maps` invokes it) and
the unaccelerated fallback produce the same four maps at every destination
pixel, for every configuration and orientation — in the exact-real embedding
they agree identically, so over machine floats they agree up to rounding. -/
theorem C3_fallback_equals_jit (cfg : Config) (yaw pitch roll : ℝ)
    (r c : ℕ) :
    (distortion_maps cfg yaw pitch roll).left_x r c =
      (compute_vr_distortion_fallback cfg yaw pitch roll).left_x r c ∧
    (distortion_maps cfg yaw pitch roll).left_y r c =
      (compute_vr_distortion_fallback cfg yaw pitch roll).left_y r c ∧
    (distortion_maps cfg yaw pitch roll).right_x r c =
      (compute_vr_distortion_fallback cfg yaw pitch roll).right_x r c ∧
    (distortion_maps cfg yaw pitch roll).right_y r c =
      (compute_vr_distortion_fallback cfg yaw pitch roll).right_y r c := by
  refine ⟨?_, ?_, ?_, ?_⟩ <;>
    simp only [distortion_maps, compute_vr_distortion,
      compute_vr_distortion_fallback, mulVec_three]

/-- C4: at every destination pixel and for each eye, the stored map entries
follow the spec's projection rule applied to the rotation of the IPD-offset
3-D point: perspective projection (`x/z·focal + width/2`, `y/z·focal +
height/2`) when the rotated z is strictly positive, the sentinel `-1` in both
coordinates otherwise. -/
theorem C4_projection_and_sentinel (cfg : Config) (yaw pitch roll : ℝ)
    (r c : ℕ) :
    ((distortion_maps cfg yaw pitch roll).left_x r c,
      (distortion_maps cfg yaw pitch roll).left_y r c) =
      spec_project (focal_length cfg) (target_width cfg : ℝ)
        (target_height cfg : ℝ)
        ((create_rotation_matrix yaw pitch roll).mulVec
          ![x_flat cfg (r * target_width cfg + c) - half_ipd cfg,
            y_flat cfg (r * target_width cfg + c),
            z_flat cfg (r * target_width cfg + c)]) ∧
    ((distortion_maps cfg yaw pitch roll).right_x r c,
      (distortion_maps cfg yaw pitch roll).right_y r c) =
      spec_project (focal_length cfg) (target_width cfg : ℝ)
        (target_height cfg : ℝ)
        ((create_rotation_matrix yaw pitch roll).mulVec
          ![x_flat cfg (r * target_width cfg + c) + half_ipd cfg,
            y_flat cfg (r * target_width cfg + c),
            z_flat cfg (r * target_width cfg + c)]) := by
  constructor <;>
  · simp only [distortion_maps, compute_vr_distortion, spec_project,
      mulVec_three]
    split_ifs <;> rfl

theorem rotation_matrix_zero : create_rotation_matrix 0 0 0 = 1 := by
  have h0 : radians 0 = 0 := by simp [radians]
  ext i j
  fin_cases i <;> fin_cases j <;>
    simp [create_rotation_matrix, h0, Matrix.mul_apply, Fin.sum_univ_three,
      Matrix.one_apply, Matrix.vecHead, Matrix.vecTail]

theorem focal_length_config_ipd0 : focal_length config_ipd0 = 320 := by
  have hfov : ((config_ipd0.FOV_DEGREES : ℚ) : ℝ) = 90 := by
    norm_num [config_ipd0, config]
  rw [focal_length, fov_rad, hfov]
  rw [show radians 90 / 2 = Real.pi / 4 by rw [radians]; ring]
  rw [Real.tan_pi_div_four]
  norm_num [target_width, config_ipd0, config]

theorem half_ipd_config_ipd0 : half_ipd config_ipd0 = 0 := by
  simp [half_ipd, config_ipd0, config]

/-- C8: with all angles zero and the IPD set to zero, both eyes' maps are the
identity pinhole map — every in-range destination pixel `(row r, column c)`
maps to the source pixel with the same coordinates, and the left and right
maps coincide. -/
theorem C8_identity_projection (r c : ℕ)
    (hr : r < target_height config_ipd0)
    (hc : c < target_width config_ipd0) :
    (distortion_maps config_ipd0 0 0 0).left_x r c = (c : ℝ) ∧
    (distortion_maps config_ipd0 0 0 0).left_y r c = (r : ℝ) ∧
    (distortion_maps config_ipd0 0 0 0).right_x r c = (c : ℝ) ∧
    (distortion_maps config_ipd0 0 0 0).right_y r c = (r : ℝ) := by
  have htw : target_width config_ipd0 = 640 := rfl
  have hth : target_height config_ipd0 = 720 := rfl
  have hmod :
      (r * target_width config_ipd0 + c) % target_width config_ipd0 = c := by
    rw [htw] at hc ⊢
    omega
  have hdiv :
      (r * target_width config_ipd0 + c) / target_width config_ipd0 = r := by
    rw [htw] at hc ⊢
    omega
  have hx : x_flat config_ipd0 (r * target_width config_ipd0 + c) =
      (c : ℝ) - 320 := by
    rw [x_flat, hmod, htw]
    norm_num
  have hy : y_flat config_ipd0 (r * target_width config_ipd0 + c) =
      (r : ℝ) - 360 := by
    rw [y_flat, hdiv, hth]
    norm_num
  have hz : z_flat config_ipd0 (r * target_width config_ipd0 + c) = 320 := by
    rw [z_flat, focal_length_config_ipd0]
  have hcast : ((target_width config_ipd0 : ℕ) : ℝ) = 640 := by
    rw [htw]
    norm_num
  have hcast' : ((target_height config_ipd0 : ℕ) : ℝ) = 720 := by
    rw [hth]
    norm_num
  have h00 : (1 : Matrix (Fin 3) (Fin 3) ℝ) 0 0 = 1 := Matrix.one_apply_eq 0
  have h11 : (1 : Matrix (Fin 3) (Fin 3) ℝ) 1 1 = 1 := Matrix.one_apply_eq 1
  have h22 : (1 : Matrix (Fin 3) (Fin 3) ℝ) 2 2 = 1 := Matrix.one_apply_eq 2
  have h01 : (1 : Matrix (Fin 3) (Fin 3) ℝ) 0 1 = 0 :=
    Matrix.one_apply_ne (by decide)
  have h02 : (1 : Matrix (Fin 3) (Fin 3) ℝ) 0 2 = 0 :=
    Matrix.one_apply_ne (by decide)
  have h10 : (1 : Matrix (Fin 3) (Fin 3) ℝ) 1 0 = 0 :=
    Matrix.one_apply_ne (by decide)
  have h12 : (1 : Matrix (Fin 3) (Fin 3) ℝ) 1 2 = 0 :=
    Matrix.one_apply_ne (by decide)
  have h20 : (1 : Matrix (Fin 3) (Fin 3) ℝ) 2 0 = 0 :=
    Matrix.one_apply_ne (by decide)
  have h21 : (1 : Matrix (Fin 3) (Fin 3) ℝ) 2 1 = 0 :=
    Matrix.one_apply_ne (by decide)
  refine ⟨?_, ?_, ?_, ?_⟩ <;>
  · simp only [distortion_maps, compute_vr_distortion, rotation_matrix_zero,
      half_ipd_config_ipd0, hx, hy, hz, focal_length_config_ipd0, hcast,
      hcast', h00, h01, h02, h10, h11, h12, h20, h21, h22,
      mul_zero, mul_one, add_zero, zero_add, sub_zero]
    rw [if_pos (by norm_num : (0 : ℝ) < 320)]
    rw [div_mul_cancel₀ _ (by norm_num : (320 : ℝ) ≠ 0)]
    norm_num

/-- Witness for C8 at the spec's named destination pixel — row 360 =
`target_height/2`, column 320 = `target_width/2` — which maps to the source
pixel with the same coordinates in both eyes. -/
theorem C8_identity_projection_witness :
    360 < target_height config_ipd0 ∧ 320 < target_width config_ipd0 ∧
    ((distortion_maps config_ipd0 0 0 0).left_x 360 320 = ((320 : ℕ) : ℝ) ∧
      (distortion_maps config_ipd0 0 0 0).left_y 360 320 = ((360 : ℕ) : ℝ) ∧
      (distortion_maps config_ipd0 0 0 0).right_x 360 320 = ((320 : ℕ) : ℝ) ∧
      (distortion_maps config_ipd0 0 0 0).right_y 360 320 =
        ((360 : ℕ) : ℝ)) :=
  ⟨by decide, by decide,
    C8_identity_projection 360 320 (by decide) (by decide)⟩
